import Mathlib

/-!
Verification development for the `harvester_ts` repository (`harvest.py`).

The program harvests dated data granules from a remote archive: it resolves a
[start, end] date range from up to three optional CLI inputs, enumerates
granule identities (remote URL, local path) across that range at a configured
time resolution, and runs a download / validate / commit-or-discard pipeline
per granule with skip-if-present semantics and an optional object-store upload.

This file shallowly embeds the relevant parts of `harvest.py`:
  * UTC timestamps are modelled as `Int` seconds since the Unix epoch, with a
    proleptic-Gregorian calendar (`daysFromCivil` / `civilFromDays`, the
    standard civil-date algorithms) to convert (year, month, day) inputs.
  * `set_date_range` embeds the resolver (source lines 56-131).  Python local
    variables that may be read before assignment are modelled as `Option Int`
    values; reading `none` produces the `unboundLocal` error, mirroring
    Python's `UnboundLocalError`.  `sys.exit(1..4)` calls are modelled as the
    typed errors `futureStart`, `endBeforeStart`, `invalidDayCount`,
    `overconstrained`.
  * `replace_template` embeds the template engine (lines 133-154).  Python's
    `str.replace` is embedded by `replace2`, specialised to the two-character
    `%c` patterns used at these call sites (left-to-right, non-overlapping,
    replace-all: identical to `str.replace` for these patterns).
  * `time_setting_dict` embeds the duration parser (lines 156-173), returning
    the induced `timedelta` in seconds.  Python's `int()` also tolerates
    surrounding whitespace and a sign; the claims only concern digit-only
    prefixes, which is what is modelled.
  * The enumeration loop of `paths_generator` (lines 192-201) is embedded
    fuel-style by `genDatesFuel`; a `none` result means the fuel ran out, and
    nontermination of the source loop corresponds to `genDatesFuel` returning
    `none` for every fuel value.
  * `harvest_date_range` (lines 227-306) is embedded as a state transformer
    over a filesystem modelled as the list of existing file paths, an
    event trace recording network activity (wget fetches and S3 uploads), and
    a log of recoverable errors.  External collaborators (wget, glob, the
    netCDF reader, boto3) are oracles in a `World` structure.  Logging calls
    are no-ops in the model (the `logger.critical` call on source line 294 is
    missing its opening parenthesis in the source; it is modelled as the
    evident logging no-op).  The two directory-existence preconditions on
    lines 239-244 and the `os.makedirs` call are not modelled: directory
    state affects no claim and no file-existence check used by the claims.
-/

/-! ## Calendar: civil dates and UTC timestamps -/

/-- Days since 1970-01-01 of the civil date (y, m, d), proleptic Gregorian.
This embeds the arithmetic of Python `datetime` date construction. -/
def daysFromCivil (y0 m d : Int) : Int :=
  let y := if m ≤ 2 then y0 - 1 else y0
  let era := y / 400
  let yoe := y - era * 400
  let mp := if m ≤ 2 then m + 9 else m - 3
  let doy := (153 * mp + 2) / 5 + d - 1
  let doe := yoe * 365 + yoe / 4 - yoe / 100 + doy
  era * 146097 + doe - 719468

/-- Inverse of `daysFromCivil`: the civil date of a day number. -/
def civilFromDays (z0 : Int) : Int × Int × Int :=
  let z := z0 + 719468
  let era := z / 146097
  let doe := z - era * 146097
  let yoe := (doe - doe / 1460 + doe / 36524 - doe / 146096) / 365
  let y := yoe + era * 400
  let doy := doe - (365 * yoe + yoe / 4 - yoe / 100)
  let mp := (5 * doy + 2) / 153
  let d := doy - (153 * mp + 2) / 5 + 1
  let m := mp + (if mp < 10 then 3 else -9)
  (if m ≤ 2 then y + 1 else y, m, d)

/-- UTC timestamp (seconds since the epoch) of y-m-d hh:mm:ss, as built by
`datetime(year, month, day, hour, minute, second, tzinfo=timezone.utc)`. -/
def mkUTC (y m d hh mi ss : Int) : Int :=
  daysFromCivil y m d * 86400 + hh * 3600 + mi * 60 + ss

/-- Broken-down UTC datetime, with the fields `replace_template` reads from a
Python `datetime` (`timetuple().tm_yday` is the `yday` field). -/
structure TDate where
  year : Int
  month : Int
  day : Int
  hour : Int
  minute : Int
  second : Int
  yday : Int
deriving DecidableEq, Repr

/-- Broken-down UTC datetime of a timestamp (the view a Python `datetime`
object gives of an instant). -/
def secsToTDate (t : Int) : TDate :=
  let z := t / 86400
  let sod := t % 86400
  let c := civilFromDays z
  { year := c.1, month := c.2.1, day := c.2.2,
    hour := sod / 3600, minute := (sod % 3600) / 60, second := sod % 60,
    yday := daysFromCivil c.1 c.2.1 c.2.2 - daysFromCivil c.1 1 1 + 1 }

/-! ## Date-range resolver (`set_date_range`, source lines 56-131) -/

/-- A date argument as parsed by `datetime.strptime(.., date_fmt)`.  With the
CLI format `"%Y%m%d"` the hour is always 0; the source nevertheless reads the
`.hour` field of the parsed value, so it is kept. -/
structure DateIn where
  year : Int
  month : Int
  day : Int
  hour : Int
deriving DecidableEq, Repr

/-- The current UTC date (fields of `datetime.utcnow()` read on line 70). -/
structure YMD where
  year : Int
  month : Int
  day : Int
deriving DecidableEq, Repr

/-- The three optional inputs consumed by the resolver.  `args.get('start_date')`
and `args.get('end_date')` are `None` or a (nonempty) string in the source;
`args.get('num_days')` is `None` or an `int`.  Python truthiness makes the
integer `0` behave like an absent value; `ndTruthy` below models this. -/
structure Args where
  start_date : Option DateIn
  end_date : Option DateIn
  num_days : Option Int
deriving DecidableEq, Repr

/-- Truthiness of `args.get('num_days')`: `None` and `0` are falsy. -/
def ndTruthy (a : Args) : Bool :=
  match a.num_days with
  | some n => n != 0
  | none => false

/-- Value of `args.get('num_days')` where read (only read when truthy). -/
def ndVal (a : Args) : Int :=
  match a.num_days with
  | some n => n
  | none => 0

/-- Outcomes of the resolver's failure paths.  `futureStart`, `endBeforeStart`,
`invalidDayCount`, `overconstrained` model `sys.exit(1)`..`sys.exit(4)`;
`unboundLocal` models Python's `UnboundLocalError` from reading a local
variable that was never assigned. -/
inductive RangeErr where
  | futureStart
  | endBeforeStart
  | invalidDayCount
  | overconstrained
  | unboundLocal
deriving DecidableEq, Repr

instance {ε α : Type} [DecidableEq ε] [DecidableEq α] : DecidableEq (Except ε α) := fun x y =>
  match x, y with
  | .ok a, .ok b =>
    if h : a = b then isTrue (by rw [h]) else isFalse (by simp [h])
  | .error a, .error b =>
    if h : a = b then isTrue (by rw [h]) else isFalse (by simp [h])
  | .ok _, .error _ => isFalse (by simp)
  | .error _, .ok _ => isFalse (by simp)

/-- Reading a Python local variable: `none` means it was never assigned. -/
def getVar (v : Option Int) : Except RangeErr Int :=
  match v with
  | some x => .ok x
  | none => .error .unboundLocal

/-- Source lines 94-131: the branch structure below the validity checks.
`startv`/`endv` carry the values of the Python locals `start_date`/`end_date`
at this point (`none` = unassigned).  Reads of the locals go through `getVar`. -/
def sdrMain (a : Args) (t : YMD) (utcToday : Int) (startv endv : Option Int) :
    Except RangeErr (Int × Int) :=
  if ndTruthy a then
    -- line 95: ndays = timedelta(days=num_days) - timedelta(seconds=1)
    let nd := ndVal a * 86400 - 1
    if a.start_date.isSome && a.end_date.isSome then
      .error .overconstrained                       -- lines 96-100: sys.exit(4)
    else if a.start_date.isSome then
      match getVar startv with                      -- line 103: end = start + ndays
      | .ok s => .ok (s, s + nd)
      | .error e => .error e
    else if a.end_date.isSome then
      match getVar endv with                        -- line 106: start = end - ndays
      | .ok e => .ok (e - nd, e)
      | .error e => .error e
    else
      -- lines 111-113: end = today 23:59:59; start = end - ndays
      let e := mkUTC t.year t.month t.day 23 59 59
      .ok (e - nd, e)
  else
    if a.start_date.isSome && a.end_date.isSome then
      match getVar startv, getVar endv with         -- line 118: pass (use as given)
      | .ok s, .ok e => .ok (s, e)
      | .error er, _ => .error er
      | _, .error er => .error er
    else if a.start_date.isSome then
      match getVar startv with                      -- lines 121-122: end = today 23:59:59
      | .ok s => .ok (s, mkUTC t.year t.month t.day 23 59 59)
      | .error e => .error e
    else if a.end_date.isSome then
      match getVar endv with                        -- line 125: start_date = end_date
      | .ok e => .ok (e, e)
      | .error er => .error er
    else
      -- lines 128-130: start = utc_today; end = today 23:59:59
      .ok (utcToday, mkUTC t.year t.month t.day 23 59 59)

/-- Source lines 80-92: the end-date block and the day-count check, then the
main branch.  Note line 84 compares `end_date < start_date` whenever an end
date was supplied, regardless of whether the `start_date` local was ever
assigned. -/
def sdrAfterStart (a : Args) (t : YMD) (utcToday : Int) (startv : Option Int) :
    Except RangeErr (Int × Int) :=
  let endv : Option Int :=
    a.end_date.map fun di => mkUTC di.year di.month di.day di.hour 59 59
  let afterEnd : Except RangeErr Unit :=
    match endv with
    | some e =>
      match getVar startv with                      -- line 84: end_date < start_date
      | .ok s => if e < s then .error .endBeforeStart else .ok ()
      | .error er => .error er
    | none => .ok ()
  match afterEnd with
  | .error er => .error er
  | .ok _ =>
    -- line 88: if args.get('num_days') and args.get('num_days') < 1
    if ndTruthy a && decide (ndVal a < 1) then .error .invalidDayCount
    else sdrMain a t utcToday startv endv

/-- The date-range resolver, source lines 56-131, with `date_fmt="%Y%m%d"`
inputs already parsed.  `t` is the current UTC date (from `datetime.utcnow()`).
Returns the (start, end) timestamps or the typed failure. -/
def set_date_range (a : Args) (t : YMD) : Except RangeErr (Int × Int) :=
  let utcToday := mkUTC t.year t.month t.day 0 0 0
  let startv : Option Int :=
    a.start_date.map fun di => mkUTC di.year di.month di.day di.hour 0 0
  match startv with
  | some s =>
    if s > utcToday then .error .futureStart        -- lines 76-79: sys.exit(1)
    else sdrAfterStart a t utcToday startv
  | none => sdrAfterStart a t utcToday none

/-! ## Template engine (`replace_template`, source lines 133-154) -/

/-- Python `str.replace`, specialised to a two-character pattern `['%', x]`
(all patterns at the `replace_template` call sites have this shape): replace
every non-overlapping occurrence, scanning left to right. -/
def replace2 (x : Char) (r : List Char) : List Char → List Char
  | [] => []
  | [c] => [c]
  | c :: d :: cs =>
    if c = '%' ∧ d = x then r ++ replace2 x r cs
    else c :: replace2 x r (d :: cs)

/-- Whether the two-character pattern `['%', x]` occurs in a string. -/
def occurs2 (x : Char) : List Char → Bool
  | [] => false
  | [_] => false
  | c :: d :: cs => (c = '%' ∧ d = x : Bool) || occurs2 x (d :: cs)

/-- Zero-padded decimal rendering, as in Python `"{:04d}".format(n)` for
nonnegative `n` (all date fields substituted by the source are nonnegative). -/
def padNum (w : Nat) (n : Int) : List Char :=
  let s := (Int.toNat n).repr.data
  List.replicate (w - s.length) '0' ++ s

/-- The `trans_key` table of source lines 144-150, in insertion order (Python
dicts iterate in insertion order). -/
def transKey (d : TDate) : List (Char × List Char) :=
  [('Y', padNum 4 d.year), ('m', padNum 2 d.month), ('d', padNum 2 d.day),
   ('H', padNum 2 d.hour), ('M', padNum 2 d.minute), ('S', padNum 2 d.second),
   ('j', padNum 3 d.yday)]

/-- The template engine, source lines 133-154: substitute the seven date
tokens into the template, one `str.replace` pass per token. -/
def replace_template (template : String) (d : TDate) : String :=
  ⟨(transKey d).foldl (fun acc kv => replace2 kv.1 kv.2 acc) template.data⟩

/-- Whether a string contains any of the seven token-like substrings
`%Y %m %d %H %M %S %j`. -/
def tokenLike (l : List Char) : Bool :=
  occurs2 'Y' l || occurs2 'm' l || occurs2 'd' l || occurs2 'H' l ||
    occurs2 'M' l || occurs2 'S' l || occurs2 'j' l

/-! ## Duration parser (`time_setting_dict`, source lines 156-173) -/

/-- Seconds-per-unit for the unit letters accepted on source lines 168-172
(the keyword produced feeds `datetime.timedelta`; the model multiplies out to
seconds, the unit `timedelta` arithmetic and comparison work in). -/
def unitMult (c : Char) : Option Int :=
  if c = 's' then some 1
  else if c = 'm' then some 60
  else if c = 'h' then some 3600
  else if c = 'd' then some 86400
  else if c = 'w' then some 604800
  else none

/-- Decimal value of a nonempty all-digit string, `none` otherwise. -/
def digitsValAux (acc : Nat) : List Char → Option Nat
  | [] => some acc
  | c :: cs => if c.isDigit then digitsValAux (acc * 10 + (c.toNat - 48)) cs else none

/-- Value of `int(text)` restricted to nonempty all-digit inputs (Python's
`int()` additionally tolerates a sign and surrounding whitespace; no claim
involves such inputs). -/
def digitsVal : List Char → Option Nat
  | [] => none
  | l => digitsValAux 0 l

/-- The duration parser, source lines 156-173, returning the step in seconds:
the last character selects the unit, `int()` of the remaining characters the
count.  `none` models the `KeyError`/`ValueError`/`IndexError` failure paths. -/
def time_setting_dict (s : String) : Option Int :=
  match s.data.getLast? with
  | none => none
  | some u =>
    match unitMult u, digitsVal s.data.dropLast with
    | some m, some k => some (m * (k : Int))
    | _, _ => none

/-! ## Path utilities (`os.path` operations used by the source) -/

/-- Whether a path is absolute (`os.path.isabs` on POSIX). -/
def isabs (s : String) : Bool :=
  match s.data with
  | '/' :: _ => true
  | _ => false

/-- Final path component, `os.path.basename`: everything after the last `/`. -/
def basenameL (l : List Char) : List Char :=
  (l.reverse.takeWhile (fun c => c ≠ '/')).reverse

/-- Leading path component, `os.path.dirname`: everything before the last `/`
(empty when there is no `/`). -/
def dirnameL (l : List Char) : List Char :=
  match l.reverse.dropWhile (fun c => c ≠ '/') with
  | [] => []
  | _ :: rs => rs.reverse

/-- String wrapper for `os.path.basename`. -/
def basenameStr (s : String) : String := ⟨basenameL s.data⟩

/-- String wrapper for `os.path.dirname`. -/
def dirnameStr (s : String) : String := ⟨dirnameL s.data⟩

/-- Two-argument `os.path.join` on POSIX: an absolute second component wins;
otherwise concatenate, inserting `/` unless the first component is empty or
already ends in `/` (joining with `""` thus appends a trailing `/`). -/
def pjoin (a b : String) : String :=
  if isabs b then b
  else if a.data = [] then b
  else if a.data.getLast? = some '/' then ⟨a.data ++ b.data⟩
  else ⟨a.data ++ '/' :: b.data⟩

/-- File extension as `pathlib.Path(f).suffix`: the trailing `.xyz` of the
final path component, empty if that component has no dot after its first
character. -/
def suffixStr (s : String) : String :=
  let b := basenameL s.data
  let afterDotRev := b.reverse.takeWhile (fun c => c ≠ '.')
  if afterDotRev.length + 1 < b.length ∧ afterDotRev.length < b.length then
    ⟨'.' :: afterDotRev.reverse⟩
  else
    ""

/-! ## Granule enumerator (`paths_generator`, source lines 175-201) -/

/-- The enumeration loop of source lines 194-201 (`while cur_date <= end_date:
yield ...; cur_date += time_incr`), run with `fuel` iterations of budget:
`some cursors` when the loop exits within the budget, `none` otherwise.  The
source loop terminates exactly when some fuel suffices. -/
def genDatesFuel (step e : Int) : Nat → Int → Option (List Int)
  | 0, cur => if cur ≤ e then none else some []
  | n + 1, cur =>
    if cur ≤ e then (genDatesFuel step e n (cur + step)).map (cur :: ·)
    else some []

/-- The source's enumeration loop terminates from cursor `cur`. -/
def enumTerminates (step e cur : Int) : Prop :=
  ∃ n l, genDatesFuel step e n cur = some l

/-- Cursor sequence of the enumeration loop, with enough fuel for any
positive step (for step ≤ 0 and cur ≤ e the loop diverges; see the C5
theorems). -/
def genDates (step e cur : Int) : List Int :=
  (genDatesFuel step e ((e - cur).toNat + 1) cur).getD []

/-- Dataset configuration consumed by the enumerator (the `dataset_conf`
mapping): url template, local path template, time resolution. -/
structure DatasetConf where
  url_template : String
  local_path_template : String
  time_res : String
deriving DecidableEq, Repr

/-- One yield of `paths_generator` (lines 196-200): the (remote url, local
absolute path, local relative path) triple for a cursor timestamp. -/
def granuleAt (basedir : String) (conf : DatasetConf) (t : Int) :
    String × String × String :=
  let d := secsToTDate t
  let rel := replace_template conf.local_path_template d
  let url := replace_template conf.url_template d
  (url, pjoin basedir rel, rel)

/-- The full yield sequence of `paths_generator` over a range, for a step
known to make the loop terminate. -/
def paths_list (start e step : Int) (basedir : String) (conf : DatasetConf) :
    List (String × String × String) :=
  (genDates step e start).map (granuleAt basedir conf)

/-! ## Retrieval pipeline (`harvest_date_range`, source lines 203-306) -/

/-- Uncaught Python exceptions the pipeline can raise. -/
inductive PyErr where
  | nameError              -- call of the undefined name `is_valid_nc_file` (line 222)
  | uploadError            -- transport/auth failure inside `boto3 upload_file` (line 208)
  | wildcardDirError       -- ValueError: wildcard outside the filename (line 263)
  | multiMatchError        -- RuntimeError: multiple wildcard matches (line 284)
  | absTemplateError       -- ValueError: absolute local_path_template (line 191)
  | timeResError           -- KeyError/ValueError from time_setting_dict (line 173)
deriving DecidableEq, Repr

/-- A network call made by the pipeline: a wget invocation against a remote
URL, or a boto3 upload of a committed local file. -/
inductive Event where
  | fetch (url : String)
  | upload (path : String)
deriving DecidableEq, Repr

/-- External collaborators, as oracles: whether `wget url -O tmp` leaves a
staged file, which staging files a wildcard fetch + `glob` produces (as
basenames), whether the netCDF reader can open a file, and whether a boto3
upload of a local path succeeds. -/
structure World where
  fetchProduces : String → Bool
  globMatches : String → List String
  canOpenNc : String → Bool
  uploadOk : String → Bool

/-- Observable run state: the set of existing files, the trace of network
calls, and the recoverable errors written with `logger.error`. -/
structure RunState where
  files : List String
  events : List Event
  errlog : List String
deriving DecidableEq, Repr

/-- Result of a (partial) run: final state plus the uncaught exception, if
one aborted the run. -/
structure RunResult where
  state : RunState
  exc : Option PyErr
deriving DecidableEq, Repr

/-- Source lines 210-216: `is_valie_nc_file` (sic) tries to open the file
with the netCDF reader and reports whether that succeeded.  The bare
`except` maps every failure to `False`. -/
def is_valie_nc_file (w : World) (f : String) : Bool :=
  w.canOpenNc f

/-- Source lines 218-225: dispatch on the file extension.  For `".nc"` the
source calls `is_valid_nc_file(f)` -- a name that is nowhere defined (the
definition on line 210 is spelled `is_valie_nc_file`), so the call raises
`NameError`.  Every other extension is assumed valid without inspection. -/
def is_valid_file (f : String) : Except PyErr Bool :=
  if suffixStr f = ".nc" then .error .nameError
  else .ok true

/-- Source lines 203-208: strip the `s3://` scheme (5 characters), split on
`/` into bucket and key, and upload.  There is no error handling: a failing
upload raises out of the function.  Whether the upload succeeds is the
`uploadOk` oracle on the local path. -/
def upload_to_s3 (w : World) (local_abs_path s3_path : String) : Except PyErr Unit :=
  let s3_path_split := (s3_path.drop 5).splitOn "/"
  let _s3_bucket := s3_path_split.headD ""
  let _s3_key := String.intercalate "/" s3_path_split.tail
  if w.uploadOk local_abs_path then .ok () else .error .uploadError

/-- Source lines 289-306: validate the staged file; on success rename it to
the final path and optionally upload; on failure remove it and log a
recoverable error.  `tmp` is the staged filename, `abs`/`rel` the (possibly
wildcard-rewritten) local paths. -/
def validateAndCommit (w : World) (s3b : Option String) (st : RunState)
    (url tmp abs rel : String) : RunResult :=
  if st.files.contains tmp then                       -- line 292
    match is_valid_file tmp with                      -- line 293
    | .error e => { state := st, exc := some e }
    | .ok true =>
      -- line 295: os.rename(tmp_fname, local_abs_path)
      let st1 : RunState := { st with files := abs :: st.files.erase tmp }
      match s3b with
      | none => { state := st1, exc := none }
      | some b =>
        -- lines 298-301: upload_to_s3(local_abs_path, s3_path, s3_profile)
        let s3_path := pjoin b rel
        let st2 : RunState := { st1 with events := st1.events ++ [.upload abs] }
        match upload_to_s3 w abs s3_path with
        | .ok _ => { state := st2, exc := none }
        | .error e => { state := st2, exc := some e }
    | .ok false =>
      -- lines 302-306: discard the staged file, log the recoverable error.
      -- (Unreachable with the source's validator: see the C4/C7 theorems.)
      let st1 : RunState :=
        { files := st.files.erase tmp,
          events := st.events,
          errlog := st.errlog ++ ["Unable to download " ++ url] }
      { state := st1, exc := none }
  else
    { state := st, exc := none }

/-- Source lines 246-306, one loop iteration for the granule `(url, abs, rel)`.
If the final local path already exists the iteration does nothing (line 251).
Otherwise fetch (wildcard-aware), then validate/commit/discard. -/
def processGranule (w : World) (hfiles : String) (s3b : Option String)
    (st : RunState) (g : String × String × String) : RunResult :=
  let url := g.1
  let abs := g.2.1
  let rel := g.2.2
  -- lines 248-250: makedirs for the target directory (directory state not modelled)
  if st.files.contains abs then { state := st, exc := none }
  else if url.data.contains '*' then
    -- lines 252-284: wildcard fetch
    let url_dir := pjoin (dirnameStr url) ""
    if url_dir.data.contains '*' then
      { state := st, exc := some .wildcardDirError }  -- line 263, before the wget run
    else
      let url_file := basenameStr url
      let hits := w.globMatches url_file
      let st1 : RunState :=
        { files := st.files ++ hits.map (pjoin hfiles),
          events := st.events ++ [.fetch url],        -- lines 265-266: the wget run
          errlog := st.errlog }
      match hits with
      | [] =>
        -- lines 274-275: tmp_fname = ""; os.path.exists("") is False below
        validateAndCommit w s3b st1 url "" abs rel
      | [m] =>
        -- lines 276-282: rewrite the local paths to the matched basename
        let tmp := pjoin hfiles m
        let abs1 := pjoin (dirnameStr abs) m
        let rel1 := pjoin (dirnameStr rel) m
        validateAndCommit w s3b st1 url tmp abs1 rel1
      | _ =>
        { state := st1, exc := some .multiMatchError } -- line 284
  else
    -- lines 285-287: exact fetch into the staging name
    let tmp := pjoin hfiles rel
    let st1 : RunState := { st with
      files := if w.fetchProduces url then tmp :: st.files else st.files,
      events := st.events ++ [.fetch url] }
    validateAndCommit w s3b st1 url tmp abs rel

/-- The granule loop of lines 246-306: process granules in order; an uncaught
exception aborts the run, leaving the remaining granules unprocessed. -/
def harvestGranules (w : World) (hfiles : String) (s3b : Option String) :
    List (String × String × String) → RunState → RunResult
  | [], st => { state := st, exc := none }
  | g :: gs, st =>
    let r := processGranule w hfiles s3b st g
    match r.exc with
    | some _ => r
    | none => harvestGranules w hfiles s3b gs r.state

/-- Source lines 227-306 composed with the enumerator (lines 175-201): check
the local path template, parse the time resolution, enumerate, and process
each granule.  `none` models the diverging run (step ≤ 0: the enumeration
loop never terminates, see C5).  The template/time-resolution failures raise
on the first iteration of the `for`, before any granule is processed. -/
def harvest_date_range (w : World) (start e : Int) (basedir hfiles : String)
    (conf : DatasetConf) (s3b : Option String) (st : RunState) : Option RunResult :=
  if isabs conf.local_path_template then
    some { state := st, exc := some .absTemplateError }
  else
    match time_setting_dict conf.time_res with
    | none => some { state := st, exc := some .timeResError }
    | some step =>
      if 0 < step then
        some (harvestGranules w hfiles s3b (paths_list start e step basedir conf) st)
      else
        none

/-! ## Sanity checks on the embedded definitions -/

example :
    set_date_range ⟨some ⟨2024, 1, 1, 0⟩, some ⟨2024, 1, 3, 0⟩, none⟩ ⟨2025, 10, 12⟩
      = .ok (mkUTC 2024 1 1 0 0 0, mkUTC 2024 1 3 0 59 59) := by decide

example :
    set_date_range ⟨some ⟨2024, 2, 1, 0⟩, some ⟨2024, 2, 1, 0⟩, some 1⟩ ⟨2025, 10, 12⟩
      = .error .overconstrained := by decide

example :
    set_date_range ⟨some ⟨2099, 1, 1, 0⟩, none, none⟩ ⟨2025, 10, 12⟩
      = .error .futureStart := by decide

example :
    replace_template "f/%Y/%m/x_%Y%m%d.nc" ⟨2024, 1, 8, 0, 0, 0, 8⟩
      = "f/2024/01/x_20240108.nc" := by decide

example : time_setting_dict "1d" = some 86400 := by decide

example : time_setting_dict "90s" = some 90 := by decide

example : time_setting_dict "0d" = some 0 := by decide

example : time_setting_dict "1h30m" = none := by decide

example : time_setting_dict "" = none := by decide

example : suffixStr "a/b/data.nc" = ".nc" := by decide

example : suffixStr "a/b/archive.tar.gz" = ".gz" := by decide

example : suffixStr "a/b/.nc" = "" := by decide

example : suffixStr "a/b/noext" = "" := by decide

example : pjoin "base" "x/y.nc" = "base/x/y.nc" := by decide

example : pjoin "http://x" "" = "http://x/" := by decide

example : dirnameStr "http://x/prod_*.dat" = "http://x" := by decide

example : basenameStr "http://x/prod_*.dat" = "prod_*.dat" := by decide

example : genDates 86400 86400 0 = [0, 86400] := by decide

example :
    paths_list 0 0 86400 "base" ⟨"http://x/%Y%m%d.nc", "%Y%m%d.nc", "1d"⟩
      = [("http://x/19700101.nc", "base/19700101.nc", "19700101.nc")] := by decide

/-! ## Helper lemmas -/

/-- When the loop guard is already false, any fuel returns the empty tail. -/
theorem genDatesFuel_of_gt (step e : Int) (n : Nat) (cur : Int) (h : ¬ cur ≤ e) :
    genDatesFuel step e n cur = some [] := by
  cases n <;> simp [genDatesFuel, h]

/-- For a positive step, enough fuel makes the loop terminate. -/
theorem genDatesFuel_total (step e : Int) (hstep : 0 < step) :
    ∀ (n : Nat) (cur : Int), e - cur < (n : Int) →
      ∃ l, genDatesFuel step e n cur = some l := by
  intro n
  induction n with
  | zero =>
    intro cur h
    refine ⟨[], ?_⟩
    have hc : ¬ cur ≤ e := by omega
    simp [genDatesFuel, hc]
  | succ n ih =>
    intro cur h
    by_cases hc : cur ≤ e
    · obtain ⟨l, hl⟩ := ih (cur + step) (by push_cast at h ⊢; omega)
      exact ⟨cur :: l, by simp [genDatesFuel, hc, hl]⟩
    · exact ⟨[], by simp [genDatesFuel, hc]⟩

/-- The loop, when it terminates from a cursor within the range, yields
exactly `(e - cur).toNat / step.toNat + 1` cursor values. -/
theorem genDatesFuel_length (step e : Int) (hstep : 0 < step) :
    ∀ (n : Nat) (cur : Int) (l : List Int), genDatesFuel step e n cur = some l →
      cur ≤ e → l.length = (e - cur).toNat / step.toNat + 1 := by
  intro n
  induction n with
  | zero =>
    intro cur l hl hc
    simp [genDatesFuel, hc] at hl
  | succ n ih =>
    intro cur l hl hc
    rw [genDatesFuel, if_pos hc] at hl
    obtain ⟨l', hl', rfl⟩ := Option.map_eq_some'.mp hl
    by_cases hc2 : cur + step ≤ e
    · have hlen := ih (cur + step) l' hl' hc2
      have hs : 0 < step.toNat := by omega
      have hsle : step.toNat ≤ (e - cur).toNat := by omega
      have hsub : (e - (cur + step)).toNat = (e - cur).toNat - step.toNat := by omega
      rw [hsub] at hlen
      have hdiv : (e - cur).toNat / step.toNat
          = ((e - cur).toNat - step.toNat) / step.toNat + 1 := by
        rw [Nat.div_eq]
        simp [hs, hsle]
      simp [hlen, hdiv]
    · rw [genDatesFuel_of_gt step e n (cur + step) hc2] at hl'
      have hnil : l' = [] := (Option.some.inj hl').symm
      subst hnil
      have hlt : (e - cur).toNat < step.toNat := by omega
      simp [Nat.div_eq_of_lt hlt]

/-- The loop's last yielded cursor is within the range and one more step
would leave it. -/
theorem genDatesFuel_getLast (step e : Int) (hstep : 0 < step) :
    ∀ (n : Nat) (cur : Int) (l : List Int), genDatesFuel step e n cur = some l →
      cur ≤ e → ∃ L, l.getLast? = some L ∧ L ≤ e ∧ e < L + step := by
  intro n
  induction n with
  | zero =>
    intro cur l hl hc
    simp [genDatesFuel, hc] at hl
  | succ n ih =>
    intro cur l hl hc
    rw [genDatesFuel, if_pos hc] at hl
    obtain ⟨l', hl', rfl⟩ := Option.map_eq_some'.mp hl
    by_cases hc2 : cur + step ≤ e
    · obtain ⟨L, hL, hL1, hL2⟩ := ih (cur + step) l' hl' hc2
      obtain ⟨b, l'', rfl⟩ : ∃ b l'', l' = b :: l'' := by
        cases l' with
        | nil => simp at hL
        | cons b l'' => exact ⟨b, l'', rfl⟩
      exact ⟨L, by rw [List.getLast?_cons_cons]; exact hL, hL1, hL2⟩
    · rw [genDatesFuel_of_gt step e n (cur + step) hc2] at hl'
      have hnil : l' = [] := (Option.some.inj hl').symm
      subst hnil
      exact ⟨cur, rfl, hc, by omega⟩

/-- With a positive step, `genDates` is the loop's terminating output. -/
theorem genDatesFuel_eq_genDates (step e cur : Int) (hstep : 0 < step) :
    genDatesFuel step e ((e - cur).toNat + 1) cur = some (genDates step e cur) := by
  obtain ⟨l, hl⟩ := genDatesFuel_total step e hstep ((e - cur).toNat + 1) cur (by omega)
  rw [genDates, hl]
  simp [hl]

/-- For a nonpositive step and a cursor within the range, no fuel suffices:
the source's enumeration loop never terminates. -/
theorem genDatesFuel_none (step e : Int) (hstep : step ≤ 0) :
    ∀ (n : Nat) (cur : Int), cur ≤ e → genDatesFuel step e n cur = none := by
  intro n
  induction n with
  | zero => intro cur hc; simp [genDatesFuel, hc]
  | succ n ih =>
    intro cur hc
    have hc2 : cur + step ≤ e := by omega
    simp [genDatesFuel, hc, ih (cur + step) hc2]

/-- A `str.replace` pass whose pattern does not occur leaves the string
unchanged. -/
theorem replace2_of_not_occurs (x : Char) (r : List Char) :
    ∀ (l : List Char), occurs2 x l = false → replace2 x r l = l := by
  intro l
  induction l with
  | nil => intro _; rfl
  | cons c cs ih =>
    intro h
    cases cs with
    | nil => rfl
    | cons d cs' =>
      rw [occurs2] at h
      simp only [Bool.or_eq_false_iff, decide_eq_false_iff_not] at h
      rw [replace2, if_neg h.1, ih h.2]

/-- Expanding a template with no token-like substring changes nothing. -/
theorem replace_template_id (t : String) (d : TDate)
    (h : tokenLike t.data = false) : replace_template t d = t := by
  rw [tokenLike] at h
  simp only [Bool.or_eq_false_iff] at h
  obtain ⟨⟨⟨⟨⟨⟨hY, hm⟩, hd⟩, hH⟩, hM⟩, hS⟩, hj⟩ := h
  show (⟨(transKey d).foldl (fun acc kv => replace2 kv.1 kv.2 acc) t.data⟩ : String) = t
  rw [transKey]
  simp only [List.foldl_cons, List.foldl_nil]
  rw [replace2_of_not_occurs _ _ _ hY, replace2_of_not_occurs _ _ _ hm,
    replace2_of_not_occurs _ _ _ hd, replace2_of_not_occurs _ _ _ hH,
    replace2_of_not_occurs _ _ _ hM, replace2_of_not_occurs _ _ _ hS,
    replace2_of_not_occurs _ _ _ hj]

/-- When every granule's final local path already exists, the loop touches
nothing: the state (files, network events, error log) is returned unchanged
and no exception is raised. -/
theorem harvestGranules_all_present (w : World) (hfiles : String)
    (s3b : Option String) :
    ∀ (gs : List (String × String × String)) (st : RunState),
      (∀ g ∈ gs, st.files.contains g.2.1) →
      harvestGranules w hfiles s3b gs st = ⟨st, none⟩ := by
  intro gs
  induction gs with
  | nil => intro st _; rfl
  | cons g gs ih =>
    intro st h
    have hg : st.files.contains g.2.1 := h g (by simp)
    have hg' : g.2.1 ∈ st.files := by simpa using hg
    have hp : processGranule w hfiles s3b st g = ⟨st, none⟩ := by
      rw [processGranule]
      simp [hg']
    rw [harvestGranules, hp]
    exact ih st (fun g' hg' => h g' (List.mem_cons_of_mem g hg'))

/-! ## Claim theorems -/

/-- Claim C1.  The claim states that for every combination of the three
optional inputs the resolver returns a range with start ≤ end or fails with
one of the four named errors.  The code contradicts this (and its own
comments on lines 104-106 and 123-125, which describe computing the start
bound from a given end bound): whenever an end date is supplied without a
start date, line 84 compares `end_date < start_date` with the local
`start_date` never assigned, raising `UnboundLocalError`.  This theorem
evaluates the resolver at the failing input `end_date=20240110` alone. -/
theorem c1_end_only_raises_unbound_local :
    set_date_range ⟨none, some ⟨2024, 1, 10, 0⟩, none⟩ ⟨2025, 10, 12⟩
      = .error .unboundLocal := by decide

/-- Claim C2, counterexample.  The claim states that `num_days=3,
end_date=20240110` resolves to start 2024-01-08T00:00:00Z and end
2024-01-10T23:59:59Z; on the code this input does not produce that range
(it raises `UnboundLocalError` at line 84, see `c2_scenario_b_amended`). -/
theorem c2_scenario_b_cex :
    set_date_range ⟨none, some ⟨2024, 1, 10, 0⟩, some 3⟩ ⟨2025, 10, 12⟩
      ≠ .ok (mkUTC 2024 1 8 0 0 0, mkUTC 2024 1 10 23 59 59) := by decide

/-- Claim C2, amended.  Given `num_days=3, end_date=20240110` and no start
date, the resolver fails: the end-before-start check on line 84 reads the
`start_date` local, which is unbound when no start date was supplied, so the
call raises `UnboundLocalError` instead of returning a range. -/
theorem c2_scenario_b_amended :
    set_date_range ⟨none, some ⟨2024, 1, 10, 0⟩, some 3⟩ ⟨2025, 10, 12⟩
      = .error .unboundLocal := by decide

/-- Claim C4.  Validation dispatches on the file extension, but for the one
recognized extension `.nc` the source (line 222) calls `is_valid_nc_file`, a
name that is never defined -- the definition on line 210 is spelled
`is_valie_nc_file` -- so the validator raises `NameError` instead of
attempting the netCDF open.  Files with any other extension are indeed
accepted unconditionally.  This theorem evaluates the validator at the
failing input `"data.nc"` and at two unrecognized extensions. -/
theorem c4_nc_dispatch_name_error :
    is_valid_file "data.nc" = .error .nameError ∧
    is_valid_file "data.txt" = .ok true ∧
    is_valid_file "data" = .ok true := by decide

/-- Claim C6, counterexample.  The claim states that any present day count
below 1, including 0, fails with `InvalidDayCountError`.  With `num_days=0`
(and no other inputs) the resolver instead returns today's range: the check
on line 88 is guarded by Python truthiness (`args.get('num_days') and ...`)
and the integer 0 is falsy, so 0 is treated as if the day count were absent. -/
theorem c6_zero_day_count_cex :
    set_date_range ⟨none, none, some 0⟩ ⟨2025, 10, 12⟩
        = .ok (mkUTC 2025 10 12 0 0 0, mkUTC 2025 10 12 23 59 59) ∧
      set_date_range ⟨none, none, some 0⟩ ⟨2025, 10, 12⟩
        ≠ .error .invalidDayCount := by decide

/-- Claim C6, amended.  Whenever the day count is present with a value below
1 other than 0 (0 is treated as an absent day count), and no higher-priority
check fires first (a supplied start date is not in the future; an end date
is only supplied together with a start date that is not after it, since an
end date without a start date crashes at line 84), the resolver fails with
`InvalidDayCountError`. -/
theorem c6_negative_day_count (a : Args) (t : YMD) (n : Int)
    (hn : a.num_days = some n) (h1 : n < 1) (h0 : n ≠ 0)
    (hstart : ∀ ds, a.start_date = some ds →
      mkUTC ds.year ds.month ds.day ds.hour 0 0 ≤ mkUTC t.year t.month t.day 0 0 0)
    (hend : ∀ de, a.end_date = some de → ∃ ds, a.start_date = some ds ∧
      mkUTC ds.year ds.month ds.day ds.hour 0 0
        ≤ mkUTC de.year de.month de.day de.hour 59 59) :
    set_date_range a t = .error .invalidDayCount := by
  obtain ⟨sd, ed, nd⟩ := a
  simp only at hn hstart hend
  subst hn
  have hT : ndTruthy ⟨sd, ed, some n⟩ = true := by simp [ndTruthy, h0]
  have hV : decide (ndVal ⟨sd, ed, some n⟩ < 1) = true := by simp [ndVal, h1]
  cases sd with
  | none =>
    cases ed with
    | some de =>
      obtain ⟨ds, hds, _⟩ := hend de rfl
      exact absurd hds (by simp)
    | none =>
      simp [set_date_range, sdrAfterStart, hT, hV]
  | some ds =>
    have hfut : ¬ mkUTC ds.year ds.month ds.day ds.hour 0 0
        > mkUTC t.year t.month t.day 0 0 0 :=
      not_lt.mpr (hstart ds rfl)
    cases ed with
    | none =>
      simp [set_date_range, sdrAfterStart, hfut, hT, hV]
    | some de =>
      obtain ⟨ds', hds', hle⟩ := hend de rfl
      have heq : ds = ds' := Option.some.inj hds'
      rw [← heq] at hle
      have hnlt : ¬ mkUTC de.year de.month de.day de.hour 59 59
          < mkUTC ds.year ds.month ds.day ds.hour 0 0 := not_lt.mpr hle
      simp [set_date_range, sdrAfterStart, getVar, hfut, hnlt, hT, hV]

/-- Claim C6, witness for the amended theorem at the concrete input
`num_days = -2` with no start or end date. -/
theorem c6_negative_day_count_witness :
    (-2 : Int) < 1 ∧ (-2 : Int) ≠ 0 ∧
    set_date_range ⟨none, none, some (-2)⟩ ⟨2025, 10, 12⟩ = .error .invalidDayCount :=
  ⟨by decide, by decide,
    c6_negative_day_count ⟨none, none, some (-2)⟩ ⟨2025, 10, 12⟩ (-2) rfl
      (by decide) (by decide) (fun ds h => nomatch h) (fun de h => nomatch h)⟩

/-- Claim C5, counterexample.  The duration grammar (one or more digits then
a unit letter) accepts `"0d"`, which parses to a zero step; with a zero step
and any range with start ≤ end (here start = end = 0) the enumeration loop
`while cur_date <= end_date: ...; cur_date += time_incr` never advances and
never terminates: no fuel bound makes it finish. -/
theorem c5_zero_duration_cex :
    time_setting_dict "0d" = some 0 ∧ (0 : Int) ≤ 0 ∧ ¬ enumTerminates 0 0 0 :=
  ⟨by decide, by decide, fun ⟨n, l, h⟩ => by
    rw [genDatesFuel_none 0 0 (by omega) n 0 (by omega)] at h
    exact Option.noConfusion h⟩

/-- Claim C5, amended.  For every duration string the parser accepts whose
numeric count is positive (so the parsed step is positive) and every range
with start ≤ end, the enumeration loop terminates, yielding a finite list of
cursor values; a count of zero (e.g. `"0d"`, which the grammar accepts)
makes the loop diverge instead. -/
theorem c5_positive_duration_terminates (s : String) (step e cur : Int)
    (hp : time_setting_dict s = some step) (hpos : 0 < step) (hle : cur ≤ e) :
    enumTerminates step e cur := by
  obtain ⟨l, hl⟩ :=
    genDatesFuel_total step e hpos ((e - cur).toNat + 1) cur (by omega)
  exact ⟨(e - cur).toNat + 1, l, hl⟩

/-- Claim C5, witness for the amended theorem: `"1d"` parses to the positive
step 86400 and the loop over [0, 86400] terminates. -/
theorem c5_positive_duration_terminates_witness :
    time_setting_dict "1d" = some 86400 ∧ (0 : Int) < 86400 ∧ (0 : Int) ≤ 86400 ∧
      enumTerminates 86400 86400 0 :=
  ⟨by decide, by decide, by decide,
    c5_positive_duration_terminates "1d" 86400 86400 0 (by decide) (by decide) (by decide)⟩

/-- Claim C9.  For every range with start ≤ end and every positive step, the
enumerator yields exactly `(end - start) / step + 1` granule candidates
(floor division), and the loop's last cursor value is ≤ end while one more
step would exceed end. -/
theorem c9_enumerator_count (start e step : Int) (basedir : String)
    (conf : DatasetConf) (hstep : 0 < step) (hle : start ≤ e) :
    (paths_list start e step basedir conf).length
        = (e - start).toNat / step.toNat + 1 ∧
      ∃ L, (genDates step e start).getLast? = some L ∧ L ≤ e ∧ e < L + step := by
  have h := genDatesFuel_eq_genDates step e start hstep
  constructor
  · rw [paths_list, List.length_map]
    exact genDatesFuel_length step e hstep _ start _ h hle
  · exact genDatesFuel_getLast step e hstep _ start _ h hle

/-- Claim C9, witness at start = 0, end = 200000, step = 86400 (expecting
floor(200000 / 86400) + 1 = 3 candidates, last cursor 172800). -/
theorem c9_enumerator_count_witness :
    (0 : Int) < 86400 ∧ (0 : Int) ≤ 200000 ∧
      (paths_list 0 200000 86400 "b" ⟨"u", "p", "1d"⟩).length
          = ((200000 : Int) - 0).toNat / (86400 : Int).toNat + 1 ∧
      ∃ L, (genDates 86400 200000 0).getLast? = some L ∧ L ≤ 200000 ∧
        200000 < L + 86400 :=
  ⟨by decide, by decide,
    (c9_enumerator_count 0 200000 86400 "b" ⟨"u", "p", "1d"⟩ (by decide) (by decide)).1,
    (c9_enumerator_count 0 200000 86400 "b" ⟨"u", "p", "1d"⟩ (by decide) (by decide)).2⟩

/-- Claim C10.  Template expansion is idempotent on templates with no
token-like substring: expanding such a template changes nothing, so a second
expansion returns the first expansion unchanged. -/
theorem c10_template_idempotent (t : String) (d : TDate)
    (h : tokenLike t.data = false) :
    replace_template (replace_template t d) d = replace_template t d := by
  rw [replace_template_id t d h]
  exact replace_template_id t d h

/-- Claim C10, witness at a token-free template and a concrete date. -/
theorem c10_template_idempotent_witness :
    tokenLike "archive/prod_file.dat".data = false ∧
      replace_template (replace_template "archive/prod_file.dat" ⟨2024, 1, 8, 0, 0, 0, 8⟩)
          ⟨2024, 1, 8, 0, 0, 0, 8⟩
        = replace_template "archive/prod_file.dat" ⟨2024, 1, 8, 0, 0, 0, 8⟩ :=
  ⟨by decide, c10_template_idempotent "archive/prod_file.dat" ⟨2024, 1, 8, 0, 0, 0, 8⟩ (by decide)⟩

/-- Claim C3.  Re-running the pipeline over the same resolved range when
every enumerated granule's local absolute path already exists: every
iteration takes the skip-if-present branch (line 251), so the run completes
with the state -- including the network-event trace -- unchanged: zero
network calls, no errors, no exception. -/
theorem c3_second_run_no_network (w : World) (st : RunState) (start e step : Int)
    (basedir hfiles : String) (conf : DatasetConf) (s3b : Option String)
    (h1 : isabs conf.local_path_template = false)
    (h2 : time_setting_dict conf.time_res = some step)
    (h3 : 0 < step)
    (h4 : ∀ g ∈ paths_list start e step basedir conf, st.files.contains g.2.1) :
    harvest_date_range w start e basedir hfiles conf s3b st = some ⟨st, none⟩ := by
  rw [harvest_date_range, h2]
  simp only [h1, Bool.false_eq_true, if_false, h3, if_true]
  exact congrArg some (harvestGranules_all_present w hfiles s3b _ st h4)

/-- Claim C3, witness: a one-granule range whose target file is already on
disk; the run returns the state unchanged with an empty event trace. -/
theorem c3_second_run_no_network_witness :
    isabs "%Y%m%d.dat" = false ∧ time_setting_dict "1d" = some 86400 ∧
      (0 : Int) < 86400 ∧
      (∀ g ∈ paths_list (mkUTC 2024 1 1 0 0 0) (mkUTC 2024 1 1 0 0 0) 86400 "base"
          ⟨"http://x/%Y%m%d.dat", "%Y%m%d.dat", "1d"⟩,
        (["base/20240101.dat"] : List String).contains g.2.1) ∧
      harvest_date_range ⟨fun _ => false, fun _ => [], fun _ => false, fun _ => false⟩
          (mkUTC 2024 1 1 0 0 0) (mkUTC 2024 1 1 0 0 0) "base" "hf"
          ⟨"http://x/%Y%m%d.dat", "%Y%m%d.dat", "1d"⟩ none ⟨["base/20240101.dat"], [], []⟩
        = some ⟨⟨["base/20240101.dat"], [], []⟩, none⟩ :=
  ⟨by decide, by decide, by decide, by decide,
    c3_second_run_no_network ⟨fun _ => false, fun _ => [], fun _ => false, fun _ => false⟩
      ⟨["base/20240101.dat"], [], []⟩ (mkUTC 2024 1 1 0 0 0) (mkUTC 2024 1 1 0 0 0) 86400
      "base" "hf" ⟨"http://x/%Y%m%d.dat", "%Y%m%d.dat", "1d"⟩ none
      (by decide) (by decide) (by decide) (by decide)⟩

/-- Claim C7.  The claim states that a downloaded staged file that fails
validation is discarded, a recoverable error is logged, and the run
continues.  On the code the "fails validation" branch is unreachable: the
only extension that is ever inspected is `.nc`, and for it `is_valid_file`
calls the undefined name `is_valid_nc_file` (line 222; the definition on
line 210 is spelled `is_valie_nc_file`), so the iteration raises `NameError`
before any verdict.  This theorem runs the pipeline on a granule whose
staged `.nc` file the netCDF reader would reject (`canOpenNc` is constantly
false): the run aborts with `NameError`, the staged file `hf/a.nc` is left
in the staging area, the final path `base/a.nc` is never created, and no
recoverable error is logged -- contradicting every part of the claimed
behaviour. -/
theorem c7_invalid_nc_aborts_run :
    harvest_date_range ⟨fun _ => true, fun _ => [], fun _ => false, fun _ => true⟩
        0 0 "base" "hf" ⟨"http://x/a.nc", "a.nc", "1d"⟩ none ⟨[], [], []⟩
      = some ⟨⟨["hf/a.nc"], [.fetch "http://x/a.nc"], []⟩, some .nameError⟩ := by decide

/-- Claim C8, counterexample.  The claim states that a mirror-upload failure
after a successful local commit does not abort the processing of subsequent
granules.  On the code `upload_to_s3` is called with no exception handling
(line 300), so a failing upload propagates and ends the run: over a
two-granule range where every fetch succeeds and every upload fails, the run
stops with the upload exception after granule one -- the second granule is
never fetched and its local file is never created. -/
theorem c8_upload_failure_aborts_cex :
    harvest_date_range ⟨fun _ => true, fun _ => [], fun _ => true, fun _ => false⟩
        0 86400 "base" "hf" ⟨"http://x/%d.dat", "%d.dat", "1d"⟩
        (some "s3://bkt/raw") ⟨[], [], []⟩
      = some ⟨⟨["base/01.dat"],
          [.fetch "http://x/01.dat", .upload "base/01.dat"], []⟩, some .uploadError⟩ ∧
    Event.fetch "http://x/02.dat"
      ∉ [Event.fetch "http://x/01.dat", Event.upload "base/01.dat"] ∧
    "base/02.dat" ∉ ["base/01.dat"] := by decide

/-- Claim C8, amended.  A mirror-upload failure after a successful local
commit does not undo the commit -- the renamed file stays at its final local
path -- but the exception propagates uncaught, so the run aborts and no
subsequent granule is processed (the event trace ends with the failed
upload), and no recoverable error is logged. -/
theorem c8_upload_failure_aborts (w : World) (st : RunState)
    (url abs rel hfiles b : String) (gs : List (String × String × String))
    (h1 : st.files.contains abs = false)
    (h2 : url.data.contains '*' = false)
    (h3 : w.fetchProduces url = true)
    (h4 : suffixStr (pjoin hfiles rel) ≠ ".nc")
    (h5 : w.uploadOk abs = false) :
    harvestGranules w hfiles (some b) ((url, abs, rel) :: gs) st
      = ⟨⟨abs :: st.files, st.events ++ [.fetch url, .upload abs], st.errlog⟩,
          some .uploadError⟩ := by
  have h1' : abs ∉ st.files := by simpa using h1
  have h2' : '*' ∉ url.data := by simpa using h2
  have hval : is_valid_file (pjoin hfiles rel) = .ok true := by
    rw [is_valid_file, if_neg h4]
  rw [harvestGranules, processGranule]
  simp [h1', h2', h3, validateAndCommit, hval, upload_to_s3, h5, List.erase_cons_head]

/-- Claim C8, witness for the amended theorem at a concrete one-granule run
whose upload fails. -/
theorem c8_upload_failure_aborts_witness :
    ([] : List String).contains "base/a.dat" = false ∧
      ("http://y/a.dat".data.contains '*') = false ∧
      suffixStr (pjoin "hf" "a.dat") ≠ ".nc" ∧
      harvestGranules ⟨fun _ => true, fun _ => [], fun _ => true, fun _ => false⟩
          "hf" (some "s3://bkt/raw") [("http://y/a.dat", "base/a.dat", "a.dat")] ⟨[], [], []⟩
        = ⟨⟨["base/a.dat"], [.fetch "http://y/a.dat", .upload "base/a.dat"], []⟩,
            some .uploadError⟩ :=
  ⟨by decide, by decide, by decide,
    c8_upload_failure_aborts ⟨fun _ => true, fun _ => [], fun _ => true, fun _ => false⟩
      ⟨[], [], []⟩ "http://y/a.dat" "base/a.dat" "a.dat" "hf" "s3://bkt/raw" []
      (by decide) (by decide) (by decide) (by decide) (by decide)⟩
